import Mathlib

/-!
# Verification of the DataHub SQL stored-procedure ingestion models

Shallow embedding of `sql_job_models.py` and `sql_stored_procedure_helper.py`
(metadata-ingestion, `datahub/ingestion/source/sql/`). Python strings are
modelled as `List Char`; `Optional[T]` as `Option T`; `Dict[str, str]` bags
(whose values may in practice hold `None`) as association lists over
`Option Str` values; raised exceptions as `Except`.
-/

/-- A Python string, modelled as its list of characters. -/
abbrev Str := List Char

/-- Python `s.replace(",", "-")` for a single-character pattern: every comma
becomes a hyphen. -/
def replaceCommaWithHyphen (s : Str) : Str :=
  s.map (fun c => if c = ',' then '-' else c)

/-- Python `sorted(xs)` on a list of strings: a stable sort by the
lexicographic order. -/
def pySorted (xs : List Str) : List Str :=
  List.insertionSort (· ≤ ·) xs

/-- Embeds `SQLJob`: generic representation of a SQL job (`sql_job_models.py`). -/
structure SQLJob where
  db : Str
  platform_instance : Option Str
  name : Str
  env : Str
  source : Str
  type : Str := "JOB".toList
deriving DecidableEq

def SQLJob.formatted_name (j : SQLJob) : Str :=
  replaceCommaWithHyphen j.name

def SQLJob.full_type (j : SQLJob) : Str :=
  ['('] ++ j.source ++ [','] ++ j.formatted_name ++ [','] ++ j.env ++ [')']

def SQLJob.orchestrator (j : SQLJob) : Str :=
  j.source

def SQLJob.cluster (j : SQLJob) : Str :=
  j.env

/-- Embeds `SQLProceduresContainer`: container for a group of stored procedures. -/
structure SQLProceduresContainer where
  db : Str
  platform_instance : Option Str
  name : Str
  env : Str
  source : Str
  type : Str := "JOB".toList
deriving DecidableEq

def SQLProceduresContainer.formatted_name (c : SQLProceduresContainer) : Str :=
  replaceCommaWithHyphen c.name

def SQLProceduresContainer.orchestrator (c : SQLProceduresContainer) : Str :=
  c.source

def SQLProceduresContainer.cluster (c : SQLProceduresContainer) : Str :=
  c.env

/-- Embeds `SQLProceduresContainer.full_type` interpolates the raw `name`, not
`formatted_name` (line 115 of `sql_job_models.py`). -/
def SQLProceduresContainer.full_type (c : SQLProceduresContainer) : Str :=
  ['('] ++ c.source ++ [','] ++ c.name ++ [','] ++ c.env ++ [')']

-- sanity checks on small inputs
example : replaceCommaWithHyphen "stored,procedures".toList = "stored-procedures".toList := by
  decide

example : pySorted ["b".toList, "a".toList, "a".toList] =
    ["a".toList, "a".toList, "b".toList] := by
  decide

/-- Embeds `ProcedureParameter`: a parameter of a stored procedure. -/
structure ProcedureParameter where
  name : Str
  type : Str
  direction : Option Str := none
  default_value : Option Str := none
deriving DecidableEq

/-- The `Union[SQLJob, SQLProceduresContainer]` that a `StoredProcedure`
holds as its parent flow. -/
inductive SQLFlowEntity where
  | job (j : SQLJob)
  | container (c : SQLProceduresContainer)
deriving DecidableEq

def SQLFlowEntity.orchestrator : SQLFlowEntity → Str
  | .job j => j.orchestrator
  | .container c => c.orchestrator

def SQLFlowEntity.formatted_name : SQLFlowEntity → Str
  | .job j => j.formatted_name
  | .container c => c.formatted_name

def SQLFlowEntity.cluster : SQLFlowEntity → Str
  | .job j => j.cluster
  | .container c => c.cluster

def SQLFlowEntity.platform_instance : SQLFlowEntity → Option Str
  | .job j => j.platform_instance
  | .container c => c.platform_instance

def SQLFlowEntity.env : SQLFlowEntity → Str
  | .job j => j.env
  | .container c => c.env

def SQLFlowEntity.db : SQLFlowEntity → Str
  | .job j => j.db
  | .container c => c.db

/-- Embeds `StoredProcedure`: generic representation of a stored procedure.
Timestamps are abstracted to naturals; `source` is kept as a plain string
since the source implementation always sets it before use. -/
structure StoredProcedure where
  db : Str
  schema : Str
  name : Str
  flow : SQLFlowEntity
  type : Str := "STORED_PROCEDURE".toList
  source : Str
  code : Option Str := none
  language : Option Str := none
  created : Option Nat := none
  last_altered : Option Nat := none
  comment : Option Str := none
  owner : Option Str := none
  parameters : Option (List ProcedureParameter) := none
  return_type : Option Str := none
deriving DecidableEq

def StoredProcedure.full_type (p : StoredProcedure) : Str :=
  p.source.map Char.toUpper ++ ['_'] ++ p.type

def StoredProcedure.formatted_name (p : StoredProcedure) : Str :=
  replaceCommaWithHyphen p.name

def StoredProcedure.full_name (p : StoredProcedure) : Str :=
  p.db ++ ['.'] ++ p.schema ++ ['.'] ++ p.formatted_name

/-- Embeds `JobStep`: a step in a SQL job. -/
structure JobStep where
  job_name : Str
  step_name : Str
  flow : SQLJob
  type : Str := "JOB_STEP".toList
  source : Str
  command : Option Str := none
  subsystem : Option Str := none
  created : Option Nat := none
  last_altered : Option Nat := none
deriving DecidableEq

def JobStep.formatted_step (s : JobStep) : Str :=
  (s.step_name.map (fun c => if c = ',' then '-' else c)).map
    (fun c => if c = ' ' then '_' else c) |>.map Char.toLower

def JobStep.formatted_name (s : JobStep) : Str :=
  replaceCommaWithHyphen s.job_name

def JobStep.full_type (s : JobStep) : Str :=
  s.source.map Char.toUpper ++ ['_'] ++ s.type

def JobStep.full_name (s : JobStep) : Str :=
  s.formatted_name

/-- The `Union[StoredProcedure, JobStep]` wrapped by a `SQLDataJob`. -/
inductive SQLJobEntity where
  | proc (p : StoredProcedure)
  | step (s : JobStep)
deriving DecidableEq

/-- Embeds `self.entity.flow` as seen through the union: a `JobStep`'s flow is
always a `SQLJob`. -/
def SQLJobEntity.flow : SQLJobEntity → SQLFlowEntity
  | .proc p => p.flow
  | .step s => .job s.flow

def SQLJobEntity.formatted_name : SQLJobEntity → Str
  | .proc p => p.formatted_name
  | .step s => s.formatted_name

def SQLJobEntity.full_name : SQLJobEntity → Str
  | .proc p => p.full_name
  | .step s => s.full_name

def SQLJobEntity.full_type : SQLJobEntity → Str
  | .proc p => p.full_type
  | .step s => s.full_type

/-- Modelled from the spec: `make_data_flow_urn` (from
`datahub.emitter.mce_builder`, not under `src/`) builds the flow identifier
purely from orchestrator, flow name, cluster and optional platform
instance, joined by fixed comma separators. -/
def make_data_flow_urn (orchestrator flow_id cluster : Str)
    (platform_instance : Option Str) : Str :=
  "urn:li:dataFlow:(".toList ++ orchestrator ++ [','] ++
    (match platform_instance with
      | some inst => inst ++ ['.']
      | none => []) ++ flow_id ++ [','] ++ cluster ++ [')']

/-- Modelled from the spec: `make_data_job_urn` (from
`datahub.emitter.mce_builder`, not under `src/`) wraps the flow identifier
and the job name; it depends on nothing else. -/
def make_data_job_urn (orchestrator flow_id job_id cluster : Str)
    (platform_instance : Option Str) : Str :=
  "urn:li:dataJob:(".toList ++
    make_data_flow_urn orchestrator flow_id cluster platform_instance ++
    [','] ++ job_id ++ [')']

/-- Modelled from the spec: the container keys `DatabaseKey` and
`SchemaKey` (from `datahub.emitter.mcp_builder`, not under `src/`): a
database-scoped key carries (platform, instance, env, database), a
schema-scoped key additionally carries the schema. -/
inductive ContainerKey where
  | databaseKey (platform : Str) (inst : Option Str) (env : Str) (db : Str)
  | schemaKey (platform : Str) (inst : Option Str) (env : Str) (db : Str)
      (schema : Str)
deriving DecidableEq

/-- Modelled from the spec: `as_urn` derives a stable container identifier
deterministically from the key fields alone. -/
def ContainerKey.as_urn : ContainerKey → Str
  | .databaseKey platform inst env db =>
      "urn:li:container:(".toList ++ platform ++ [','] ++
        (match inst with | some i => i ++ ['.'] | none => []) ++
        env ++ [','] ++ db ++ [')']
  | .schemaKey platform inst env db schema =>
      "urn:li:container:(".toList ++ platform ++ [','] ++
        (match inst with | some i => i ++ ['.'] | none => []) ++
        env ++ [','] ++ db ++ [','] ++ schema ++ [')']

/-- Modelled from the spec: the generated aspect record
`DataJobInputOutputClass` (from `datahub.metadata.schema_classes`, not
under `src/`). -/
structure DataJobInputOutputClass where
  inputDatasets : List Str
  outputDatasets : List Str
  inputDatajobs : List Str
deriving DecidableEq

/-- Modelled from the spec: the generated aspect record `DataJobInfoClass`.
Property values are `Option Str` so that a null value put into the bag can
be observed at the emission boundary. -/
structure DataJobInfoClass where
  name : Str
  type : Str
  description : Option Str
  customProperties : List (Str × Option Str)
  externalUrl : Option Str
  status : Option Str
deriving DecidableEq

/-- Modelled from the spec: the generated aspect record
`DataFlowInfoClass`. -/
structure DataFlowInfoClass where
  name : Str
  customProperties : List (Str × Option Str)
  externalUrl : Option Str
deriving DecidableEq

/-- Modelled from the spec: the generated aspect record
`DataPlatformInstanceClass`. -/
structure DataPlatformInstanceClass where
  platform : Str
  inst : Option Str
deriving DecidableEq

/-- Modelled from the spec: the generated aspect record `ContainerClass`
holds the container identifier string. -/
structure ContainerClass where
  container : Str
deriving DecidableEq

/-- Modelled from the spec: `make_data_platform_urn`. -/
def make_data_platform_urn (platform : Str) : Str :=
  "urn:li:dataPlatform:".toList ++ platform

/-- Modelled from the spec: `make_dataplatform_instance_urn`. -/
def make_dataplatform_instance_urn (platform inst : Str) : Str :=
  "urn:li:dataPlatformInstance:(".toList ++ platform ++ [','] ++ inst ++ [')']

/-- Embeds `SQLDataJob`: wraps a `StoredProcedure`-or-`JobStep` entity together
with its mutable lineage collections and property bag
(`sql_job_models.py`, lines 210-299). -/
structure SQLDataJob where
  entity : SQLJobEntity
  type : Str := "dataJob".toList
  source : Str
  external_url : Option Str := none
  description : Option Str := none
  status : Option Str := none
  incoming : List Str := []
  outgoing : List Str := []
  input_jobs : List Str := []
  job_properties : List (Str × Option Str) := []
deriving DecidableEq

/-- Embeds `SQLDataJob.urn` (lines 227-235). -/
def SQLDataJob.urn (j : SQLDataJob) : Str :=
  make_data_job_urn j.entity.flow.orchestrator j.entity.flow.formatted_name
    j.entity.formatted_name j.entity.flow.cluster
    j.entity.flow.platform_instance

/-- Embeds `SQLDataJob.valued_properties` (lines 244-248): if the bag is nonempty,
keep only the entries whose value is not `None`. -/
def SQLDataJob.valued_properties (j : SQLDataJob) : List (Str × Option Str) :=
  if j.job_properties ≠ [] then
    j.job_properties.filter (fun kv => kv.2 ≠ none)
  else j.job_properties

/-- Embeds `SQLDataJob.as_datajob_input_output_aspect` (lines 250-256): each list
is passed through Python `sorted`. -/
def SQLDataJob.as_datajob_input_output_aspect (j : SQLDataJob) :
    DataJobInputOutputClass :=
  { inputDatasets := pySorted j.incoming
    outputDatasets := pySorted j.outgoing
    inputDatajobs := pySorted j.input_jobs }

/-- Embeds `SQLDataJob.as_datajob_info_aspect` (lines 258-267). -/
def SQLDataJob.as_datajob_info_aspect (j : SQLDataJob) : DataJobInfoClass :=
  { name := j.entity.full_name
    type := j.entity.full_type
    description := j.description
    customProperties := j.valued_properties
    externalUrl := j.external_url
    status := j.status }

/-- Embeds `SQLDataJob.as_maybe_platform_instance_aspect` (lines 269-279). -/
def SQLDataJob.as_maybe_platform_instance_aspect (j : SQLDataJob) :
    Option DataPlatformInstanceClass :=
  match j.entity.flow.platform_instance with
  | some inst =>
      some { platform := make_data_platform_urn j.entity.flow.orchestrator
             inst := some (make_dataplatform_instance_urn
               j.entity.flow.orchestrator inst) }
  | none => none

/-- Embeds `SQLDataJob.as_container_aspect` (lines 281-299): a `SchemaKey` when
the wrapped entity is a `StoredProcedure`, a `DatabaseKey` when it is a
`JobStep`. -/
def SQLDataJob.as_container_aspect (j : SQLDataJob) : ContainerClass :=
  { container :=
      (match j.entity with
        | .proc p =>
            ContainerKey.schemaKey j.entity.flow.orchestrator
              j.entity.flow.platform_instance j.entity.flow.env
              j.entity.flow.db p.schema
        | .step _ =>
            ContainerKey.databaseKey j.entity.flow.orchestrator
              j.entity.flow.platform_instance j.entity.flow.env
              j.entity.flow.db).as_urn }

/-- Embeds `SQLDataFlow`: wraps a `SQLJob`-or-`SQLProceduresContainer` entity
(`sql_job_models.py`, lines 302-357). -/
structure SQLDataFlow where
  entity : SQLFlowEntity
  type : Str := "dataFlow".toList
  source : Str
  external_url : Option Str := none
  flow_properties : List (Str × Option Str) := []
deriving DecidableEq

/-- Embeds `SQLDataFlow.urn` (lines 321-328). -/
def SQLDataFlow.urn (f : SQLDataFlow) : Str :=
  make_data_flow_urn f.entity.orchestrator f.entity.formatted_name
    f.entity.cluster f.entity.platform_instance

/-- Embeds `SQLDataFlow.as_dataflow_info_aspect` (lines 330-336): the property
bag is passed through unchanged. -/
def SQLDataFlow.as_dataflow_info_aspect (f : SQLDataFlow) : DataFlowInfoClass :=
  { name := f.entity.formatted_name
    customProperties := f.flow_properties
    externalUrl := f.external_url }

/-- Embeds `SQLDataFlow.as_container_aspect` (lines 349-357): always a
`DatabaseKey` of the flow entity. -/
def SQLDataFlow.as_container_aspect (f : SQLDataFlow) : ContainerClass :=
  { container :=
      (ContainerKey.databaseKey f.entity.orchestrator
        f.entity.platform_instance f.entity.env f.entity.db).as_urn }

/-!
## The stored-procedure helper (`sql_stored_procedure_helper.py`)

The SQL-parsing collaborators (`split_statements`, `SqlParsingAggregator`,
`to_datajob_input_output`) live outside `src/`; they are modelled from the
spec, with the per-statement reference resolver abstracted as a function
parameter `parse : ObservedQuery → Option StatementLineage` (`none` means
the statement failed to parse). -/

/-- Modelled from the spec: `split_statements` (from
`datahub.sql_parsing.split_statements`, not under `src/`) splits a
procedure body into its semicolon-terminated statements in source order,
trimming the terminating punctuation. -/
def split_statements (code : Str) : List Str :=
  code.splitOn ';'

/-- Embeds `ObservedQuery`: one statement together with the default database and
schema context it is resolved against. -/
structure ObservedQuery where
  default_db : Option Str
  default_schema : Option Str
  query : Str
deriving DecidableEq

/-- Modelled from the spec: the per-statement result of the external
reference resolver — the sets of fully-qualified tables read and
written. -/
structure StatementLineage where
  reads : List Str
  writes : List Str
deriving DecidableEq

/-- The observed queries `parse_procedure_code` feeds the aggregator: one
per split statement, each paired with the same `default_db` and
`default_schema` the function was called with (lines 259-267). -/
def observed_queries (default_db default_schema : Option Str) (code : Str) :
    List ObservedQuery :=
  (split_statements code).map
    (fun q => ObservedQuery.mk default_db default_schema q)

/-- Modelled from the spec: the aggregator's
`report.num_observed_queries_failed` — the number of statements the
resolver could not parse. -/
def num_observed_queries_failed (parse : ObservedQuery → Option StatementLineage)
    (qs : List ObservedQuery) : Nat :=
  (qs.filter (fun q => (parse q).isNone)).length

/-- Modelled from the spec: the tables one statement contributes to the
aggregate — those the resolver found (projected by `g`), or nothing when
the statement failed to parse. -/
def parsed_tables (g : StatementLineage → List Str)
    (parse : ObservedQuery → Option StatementLineage)
    (q : ObservedQuery) : List Str :=
  match parse q with
  | some l => g l
  | none => []

/-- Modelled from the spec: the aggregator folds the per-statement READ
sets of the statements that did parse into one job-level input set,
dropping temp tables and deduplicating. -/
def aggregated_reads (parse : ObservedQuery → Option StatementLineage)
    (is_temp_table : Str → Bool) (qs : List ObservedQuery) : List Str :=
  ((qs.flatMap (parsed_tables StatementLineage.reads parse)).filter
    (fun t => !is_temp_table t)).dedup

/-- Modelled from the spec: the job-level output set, analogous to
`aggregated_reads`. -/
def aggregated_writes (parse : ObservedQuery → Option StatementLineage)
    (is_temp_table : Str → Bool) (qs : List ObservedQuery) : List Str :=
  ((qs.flatMap (parsed_tables StatementLineage.writes parse)).filter
    (fun t => !is_temp_table t)).dedup

/-- Modelled from the spec: `to_datajob_input_output` (from
`datahub.sql_parsing.datajob`, not under `src/`) packages the aggregated
lineage into a `DataJobInputOutputClass`, returning `None` when no lineage
was recovered. -/
def to_datajob_input_output (inputs outputs : List Str) :
    Option DataJobInputOutputClass :=
  if inputs = [] ∧ outputs = [] then none
  else some { inputDatasets := inputs, outputDatasets := outputs,
              inputDatajobs := [] }

/-- Embeds `parse_procedure_code` (lines 223-279): splits the code, feeds every
statement to the aggregator under the same default context, raises
(`Except.error`) when statements failed and `raise_` is set, and otherwise
returns the aggregated partial lineage. -/
def parse_procedure_code (parse : ObservedQuery → Option StatementLineage)
    (is_temp_table : Str → Bool) (default_db default_schema : Option Str)
    (code : Str) (raise_ : Bool) :
    Except Str (Option DataJobInputOutputClass) :=
  if num_observed_queries_failed parse
      (observed_queries default_db default_schema code) ≠ 0 ∧
      raise_ = true then
    Except.error ("Failed to parse queries.".toList)
  else
    Except.ok (to_datajob_input_output
      (aggregated_reads parse is_temp_table
        (observed_queries default_db default_schema code))
      (aggregated_writes parse is_temp_table
        (observed_queries default_db default_schema code)))

/-- Embeds `MetadataChangeProposalWrapper` (from `datahub.emitter.mcp`, not under
`src/`): an entity identifier paired with the aspect to upsert; here
specialised to the lineage aspect emitted by `generate_procedure_lineage`. -/
structure MetadataChangeProposalWrapper where
  entityUrn : Str
  aspect : DataJobInputOutputClass
deriving DecidableEq

/-- Embeds `generate_procedure_lineage` (lines 282-317): yields nothing when the
procedure's code is falsy (`None` or empty), otherwise yields one change
proposal for the given job identifier exactly when parsing produced a
non-null result. The generator's raised exception is the `Except.error`
case. -/
def generate_procedure_lineage (parse : ObservedQuery → Option StatementLineage)
    (is_temp_table : Str → Bool) (procedure : StoredProcedure)
    (procedure_job_urn : Str) (raise_ : Bool) :
    Except Str (List MetadataChangeProposalWrapper) :=
  match procedure.code with
  | some code =>
      if code ≠ [] then
        match parse_procedure_code parse is_temp_table (some procedure.db)
            (some procedure.schema) code raise_ with
        | .error e => .error e
        | .ok (some dio) =>
            .ok [{ entityUrn := procedure_job_urn, aspect := dio }]
        | .ok none => .ok []
      else .ok []
  | none => .ok []

/-!
## Concrete instances

Small closed instances used by the witness and counterexample theorems
below. -/

/-- A concrete parent `SQLJob` flow. -/
def exFlowJob : SQLJob :=
  { db := "warehouse".toList, platform_instance := some "eastus".toList,
    name := "nightly".toList, env := "PROD".toList, source := "mssql".toList }

/-- A concrete procedures container whose name contains a comma. -/
def exContainer : SQLProceduresContainer :=
  { db := "warehouse".toList, platform_instance := none,
    name := "stored,procedures".toList, env := "PROD".toList,
    source := "mssql".toList }

/-- A stored procedure carrying code, a comment and a timestamp. -/
def exProc1 : StoredProcedure :=
  { db := "warehouse".toList, schema := "dbo".toList,
    name := "update_inventory".toList, flow := .job exFlowJob,
    source := "mssql".toList, code := some "SELECT 1".toList,
    comment := some "v1".toList, created := some 100 }

/-- The same procedure re-discovered: identical identity fields, different
code text, comment and timestamp. -/
def exProc2 : StoredProcedure :=
  { db := "warehouse".toList, schema := "dbo".toList,
    name := "update_inventory".toList, flow := .job exFlowJob,
    source := "mssql".toList, code := some "SELECT 2".toList,
    comment := some "v2".toList, created := some 200 }

/-- A data job wrapping `exProc1`, with a description. -/
def exJob1 : SQLDataJob :=
  { entity := .proc exProc1, source := "mssql".toList,
    description := some "first run".toList }

/-- A data job wrapping `exProc2`, with no description. -/
def exJob2 : SQLDataJob :=
  { entity := .proc exProc2, source := "mssql".toList, description := none }

/-- A job step. -/
def exStep1 : JobStep :=
  { job_name := "backup job".toList, step_name := "step one".toList,
    flow := exFlowJob, source := "mssql".toList }

/-- A second step of the same job, differing only in `step_name`. -/
def exStep2 : JobStep :=
  { job_name := "backup job".toList, step_name := "step two".toList,
    flow := exFlowJob, source := "mssql".toList }

/-- A data job wrapping `exStep1`. -/
def exStepJob1 : SQLDataJob :=
  { entity := .step exStep1, source := "mssql".toList }

/-- A data job wrapping `exStep2`. -/
def exStepJob2 : SQLDataJob :=
  { entity := .step exStep2, source := "mssql".toList }

/-- A data job whose lineage lists contain repeated entries. -/
def exJobDup : SQLDataJob :=
  { entity := .proc exProc1, source := "mssql".toList,
    incoming := ["a".toList, "a".toList],
    outgoing := ["b".toList, "b".toList, "b".toList],
    input_jobs := [] }

/-- A data job whose property bag holds one non-null and one null value. -/
def exJobProps : SQLDataJob :=
  { entity := .proc exProc1, source := "mssql".toList,
    job_properties := [("a".toList, some "1".toList), ("b".toList, none)] }

/-- A data flow whose property bag holds a null value. -/
def exFlowNull : SQLDataFlow :=
  { entity := .container exContainer, source := "mssql".toList,
    flow_properties := [("k".toList, none)] }

/-- A concrete resolver: fails on the statement ` bad`, otherwise reads
`analytics.metrics` and writes nothing. -/
def exParse (q : ObservedQuery) : Option StatementLineage :=
  if q.query = " bad".toList then none
  else some { reads := ["analytics.metrics".toList], writes := [] }

/-- No table is a temp table. -/
def exTempTable (_ : Str) : Bool := false

/-- A procedure body of five statements, one of which is unparseable. -/
def exCode : Str := "s1;s2;s3; bad;s5".toList

/-- A procedure body containing a `USE` statement. -/
def exUseCode : Str := "USE otherdb;SELECT * FROM t".toList

/-- A stored procedure carrying the five-statement body `exCode`. -/
def exProcWithCode : StoredProcedure :=
  { db := "warehouse".toList, schema := "analytics".toList,
    name := "calculate_metrics".toList, flow := .container exContainer,
    source := "mssql".toList, code := some exCode }

/-- A stored procedure whose code field is `None`. -/
def exProcNoCode : StoredProcedure :=
  { db := "warehouse".toList, schema := "analytics".toList,
    name := "calculate_metrics".toList, flow := .container exContainer,
    source := "mssql".toList, code := none }

/-- A `SQLJob` with the same comma-bearing name, source and env as
`exContainer`. -/
def exJobComma : SQLJob :=
  { db := "warehouse".toList, platform_instance := none,
    name := "stored,procedures".toList, env := "PROD".toList,
    source := "mssql".toList }

/-!
## Shared lemmas -/

/-- Replacing every comma with a hyphen leaves no comma behind. -/
theorem comma_not_mem_replaceCommaWithHyphen (s : Str) :
    ',' ∉ replaceCommaWithHyphen s := by
  intro h
  obtain ⟨c, _, heq⟩ := List.mem_map.1 h
  by_cases hc : c = ',' <;> simp [hc] at heq

/-- The comma count of a comma-replaced string is zero. -/
theorem count_comma_replaceCommaWithHyphen (s : Str) :
    (replaceCommaWithHyphen s).count ',' = 0 :=
  List.count_eq_zero.2 (comma_not_mem_replaceCommaWithHyphen s)

/-- Restricting a flat-map of `parsed_tables` to the statements that parse
successfully changes nothing: failed statements contribute the empty
list. -/
theorem flatMap_parsed_tables_filter_isSome (g : StatementLineage → List Str)
    (parse : ObservedQuery → Option StatementLineage)
    (l : List ObservedQuery) :
    ((l.filter (fun a => (parse a).isSome)).flatMap
        (parsed_tables g parse)) =
      l.flatMap (parsed_tables g parse) := by
  induction l with
  | nil => rfl
  | cons a t ih =>
      cases h : parse a <;>
        simp [List.filter_cons, h, ih, parsed_tables]

/-!
## Claim theorems -/

/-- C4: `SQLDataJob.urn` depends only on the five derived fields (the
flow's orchestrator, the flow's formatted name, the entity's own formatted
name, the flow's cluster, the flow's platform instance): two data jobs
agreeing on those produce identical urn strings, whatever their code text,
timestamps, description, properties or object identity. -/
theorem C4_urn_from_derived_fields_only (j1 j2 : SQLDataJob)
    (h1 : j1.entity.flow.orchestrator = j2.entity.flow.orchestrator)
    (h2 : j1.entity.flow.formatted_name = j2.entity.flow.formatted_name)
    (h3 : j1.entity.formatted_name = j2.entity.formatted_name)
    (h4 : j1.entity.flow.cluster = j2.entity.flow.cluster)
    (h5 : j1.entity.flow.platform_instance = j2.entity.flow.platform_instance) :
    j1.urn = j2.urn := by
  simp only [SQLDataJob.urn, h1, h2, h3, h4, h5]

/-- Witness for C4: `exJob1` and `exJob2` wrap the same procedure
re-discovered with different code, comment, timestamp and description, yet
their urns coincide. -/
theorem C4_urn_from_derived_fields_only_witness :
    exJob1.description ≠ exJob2.description ∧ exJob1.urn = exJob2.urn :=
  ⟨by decide,
    C4_urn_from_derived_fields_only exJob1 exJob2 rfl rfl rfl rfl rfl⟩

/-- C5: for every name, the `formatted_name` of `SQLJob`,
`SQLProceduresContainer`, `StoredProcedure` and `JobStep` contains no
comma; a container named `stored,procedures` has formatted name
`stored-procedures`. -/
theorem C5_formatted_name_comma_free (j : SQLJob) (c : SQLProceduresContainer)
    (p : StoredProcedure) (s : JobStep) :
    ',' ∉ j.formatted_name ∧ ',' ∉ c.formatted_name ∧
    ',' ∉ p.formatted_name ∧ ',' ∉ s.formatted_name ∧
    (c.name = "stored,procedures".toList →
      c.formatted_name = "stored-procedures".toList) := by
  refine ⟨comma_not_mem_replaceCommaWithHyphen _,
    comma_not_mem_replaceCommaWithHyphen _,
    comma_not_mem_replaceCommaWithHyphen _,
    comma_not_mem_replaceCommaWithHyphen _, ?_⟩
  intro h
  simp only [SQLProceduresContainer.formatted_name, h]
  decide

/-- Witness for C5: the concrete container named `stored,procedures` has a
comma-free formatted name equal to `stored-procedures`. -/
theorem C5_formatted_name_comma_free_witness :
    ',' ∉ exContainer.formatted_name ∧
    exContainer.formatted_name = "stored-procedures".toList :=
  ⟨(C5_formatted_name_comma_free exFlowJob exContainer exProc1 exStep1).2.1,
    (C5_formatted_name_comma_free exFlowJob exContainer exProc1
      exStep1).2.2.2.2 rfl⟩

/-- C8: two `JobStep`s agreeing on `job_name` and on the flow's
orchestrator, formatted name, cluster and platform instance but differing
in `step_name` yield wrapping `SQLDataJob`s with identical urn strings and
identical full names: the step name never enters the job identifier. -/
theorem C8_step_name_absent_from_identifier (d1 d2 : SQLDataJob)
    (s1 s2 : JobStep)
    (he1 : d1.entity = .step s1) (he2 : d2.entity = .step s2)
    (hname : s1.job_name = s2.job_name)
    (_hstep : s1.step_name ≠ s2.step_name)
    (ho : s1.flow.orchestrator = s2.flow.orchestrator)
    (hf : s1.flow.formatted_name = s2.flow.formatted_name)
    (hc : s1.flow.cluster = s2.flow.cluster)
    (hp : s1.flow.platform_instance = s2.flow.platform_instance) :
    d1.urn = d2.urn ∧ d1.entity.full_name = d2.entity.full_name := by
  constructor
  · simp only [SQLDataJob.urn, he1, he2, SQLJobEntity.flow,
      SQLJobEntity.formatted_name, SQLFlowEntity.orchestrator,
      SQLFlowEntity.formatted_name, SQLFlowEntity.cluster,
      SQLFlowEntity.platform_instance, JobStep.formatted_name,
      hname, ho, hf, hc, hp]
  · simp only [he1, he2, SQLJobEntity.full_name, JobStep.full_name,
      JobStep.formatted_name, hname]

/-- Witness for C8: the two concrete steps `step one` and `step two` of
the job `backup job` collide on both urn and full name. -/
theorem C8_step_name_absent_from_identifier_witness :
    exStep1.step_name ≠ exStep2.step_name ∧
    exStepJob1.urn = exStepJob2.urn ∧
    exStepJob1.entity.full_name = exStepJob2.entity.full_name :=
  ⟨by decide,
    C8_step_name_absent_from_identifier exStepJob1 exStepJob2 exStep1 exStep2
      rfl rfl rfl (by decide) rfl rfl rfl rfl⟩

/-- C9: `SQLProceduresContainer.full_type` interpolates the raw name while
`SQLJob.full_type` interpolates the comma-free formatted name: with
comma-free source and env, the container's full type carries two separator
commas plus every comma of the name, while the job's full type carries
exactly the two separators, so a comma-bearing name leaves a comma in the
container's full type only. -/
theorem C9_full_type_raw_name_vs_formatted (c : SQLProceduresContainer)
    (j : SQLJob)
    (_hn : j.name = c.name) (hs : j.source = c.source) (he : j.env = c.env)
    (hsrc : ',' ∉ c.source) (henv : ',' ∉ c.env) (hmem : ',' ∈ c.name) :
    c.full_type.count ',' = 2 + c.name.count ',' ∧
    j.full_type.count ',' = 2 ∧
    2 < c.full_type.count ',' := by
  have hsrc0 : c.source.count ',' = 0 := List.count_eq_zero.2 hsrc
  have henv0 : c.env.count ',' = 0 := List.count_eq_zero.2 henv
  have h1 : c.full_type.count ',' = 2 + c.name.count ',' := by
    simp only [SQLProceduresContainer.full_type, List.count_append,
      hsrc0, henv0]
    simp
    omega
  refine ⟨h1, ?_, ?_⟩
  · simp only [SQLJob.full_type, List.count_append, SQLJob.formatted_name,
      hs, he, hsrc0, henv0, count_comma_replaceCommaWithHyphen]
    simp
  · have hpos : 0 < c.name.count ',' := List.count_pos_iff.2 hmem
    omega

/-- Witness for C9: a container named `stored,procedures` paired with a
job of the same name, source and env: the container's full type holds
three commas, the job's two. -/
theorem C9_full_type_raw_name_vs_formatted_witness :
    exContainer.full_type.count ',' =
      2 + ("stored,procedures".toList.count ',') ∧
    exJobComma.full_type.count ',' = 2 :=
  ⟨(C9_full_type_raw_name_vs_formatted exContainer exJobComma
      rfl rfl rfl (by decide) (by decide) (by decide)).1,
    (C9_full_type_raw_name_vs_formatted exContainer exJobComma
      rfl rfl rfl (by decide) (by decide) (by decide)).2.1⟩

/-- Counterexample for C1 as stated: a data job whose `incoming` list
repeats `a` emits an input list in which `a` appears twice, not exactly
once — `sorted` in the source does not deduplicate. -/
theorem C1_counterexample_duplicates_survive :
    (exJobDup.as_datajob_input_output_aspect).inputDatasets.count "a".toList
        = 2 ∧
    ¬ ((exJobDup.as_datajob_input_output_aspect).inputDatasets.count
        "a".toList = 1) := by
  constructor <;> decide

/-- C1 (amended): the emitted input/output/job lists are each sorted and
are permutations of the corresponding lineage lists — duplicates are
preserved, not removed. -/
theorem C1_emitted_lineage_sorted_permutation (j : SQLDataJob) :
    List.Sorted (· ≤ ·) (j.as_datajob_input_output_aspect).inputDatasets ∧
    List.Perm (j.as_datajob_input_output_aspect).inputDatasets j.incoming ∧
    List.Sorted (· ≤ ·) (j.as_datajob_input_output_aspect).outputDatasets ∧
    List.Perm (j.as_datajob_input_output_aspect).outputDatasets j.outgoing ∧
    List.Sorted (· ≤ ·) (j.as_datajob_input_output_aspect).inputDatajobs ∧
    List.Perm (j.as_datajob_input_output_aspect).inputDatajobs
      j.input_jobs :=
  ⟨List.sorted_insertionSort _ _, List.perm_insertionSort _ _,
    List.sorted_insertionSort _ _, List.perm_insertionSort _ _,
    List.sorted_insertionSort _ _, List.perm_insertionSort _ _⟩

/-- Counterexample for C2 as stated: a data flow whose property bag maps
`k` to null emits that null entry unchanged in its descriptive-info
aspect — `as_dataflow_info_aspect` performs no filtering. -/
theorem C2_counterexample_flow_null_survives :
    ("k".toList, (none : Option Str)) ∈
      (exFlowNull.as_dataflow_info_aspect).customProperties := by
  decide

/-- C2 (amended): the `SQLDataJob` descriptive-info aspect emits only
property entries with non-null values, while the `SQLDataFlow`
descriptive-info aspect passes its property bag through unchanged, nulls
included. -/
theorem C2_property_bag_null_handling (j : SQLDataJob) (f : SQLDataFlow) :
    (∀ kv ∈ (j.as_datajob_info_aspect).customProperties, kv.2 ≠ none) ∧
    (f.as_dataflow_info_aspect).customProperties = f.flow_properties := by
  constructor
  · intro kv hkv
    simp only [SQLDataJob.as_datajob_info_aspect,
      SQLDataJob.valued_properties] at hkv
    split at hkv
    · simpa using (List.mem_filter.1 hkv).2
    · simp_all
  · rfl

/-- Witness for C2: in the concrete job bag `{a ↦ 1, b ↦ null}` the
emitted entry `(a, 1)` carries a non-null value. -/
theorem C2_property_bag_null_handling_witness :
    ("a".toList, some "1".toList) ∈
      (exJobProps.as_datajob_info_aspect).customProperties ∧
    (("a".toList, some "1".toList) : Str × Option Str).2 ≠ none :=
  ⟨by decide,
    (C2_property_bag_null_handling exJobProps exFlowNull).1 _ (by decide)⟩

/-- C6: a `SQLDataJob`'s containment aspect points at the schema-scoped
container key when the wrapped entity is a `StoredProcedure` and at the
database-scoped key when it is a `JobStep`; a `SQLDataFlow`'s containment
aspect always points at the database-scoped key of its flow entity. -/
theorem C6_container_aspect_scoping (j : SQLDataJob) (f : SQLDataFlow) :
    (∀ p, j.entity = .proc p →
      j.as_container_aspect = ContainerClass.mk
        (ContainerKey.schemaKey j.entity.flow.orchestrator
          j.entity.flow.platform_instance j.entity.flow.env
          j.entity.flow.db p.schema).as_urn) ∧
    (∀ s, j.entity = .step s →
      j.as_container_aspect = ContainerClass.mk
        (ContainerKey.databaseKey j.entity.flow.orchestrator
          j.entity.flow.platform_instance j.entity.flow.env
          j.entity.flow.db).as_urn) ∧
    f.as_container_aspect = ContainerClass.mk
      (ContainerKey.databaseKey f.entity.orchestrator
        f.entity.platform_instance f.entity.env f.entity.db).as_urn := by
  refine ⟨?_, ?_, rfl⟩
  · intro p hp
    simp [SQLDataJob.as_container_aspect, hp]
  · intro s hs
    simp [SQLDataJob.as_container_aspect, hs]

/-- Witness for C6: the stored-procedure job `exJob1` is contained in the
schema-scoped key, the step job `exStepJob1` in the database-scoped key. -/
theorem C6_container_aspect_scoping_witness :
    exJob1.as_container_aspect = ContainerClass.mk
      (ContainerKey.schemaKey exJob1.entity.flow.orchestrator
        exJob1.entity.flow.platform_instance exJob1.entity.flow.env
        exJob1.entity.flow.db exProc1.schema).as_urn ∧
    exStepJob1.as_container_aspect = ContainerClass.mk
      (ContainerKey.databaseKey exStepJob1.entity.flow.orchestrator
        exStepJob1.entity.flow.platform_instance exStepJob1.entity.flow.env
        exStepJob1.entity.flow.db).as_urn :=
  ⟨(C6_container_aspect_scoping exJob1 exFlowNull).1 exProc1 rfl,
    (C6_container_aspect_scoping exStepJob1 exFlowNull).2.1 exStep1 rfl⟩

/-- C7: every observed query `parse_procedure_code` hands the aggregator
carries exactly the default database and default schema the function was
called with — a `USE` statement in the body changes nothing for later
statements. -/
theorem C7_constant_default_context (ddb dsch : Option Str) (code : Str) :
    ∀ q ∈ observed_queries ddb dsch code,
      q.default_db = ddb ∧ q.default_schema = dsch := by
  intro q hq
  obtain ⟨s, _, rfl⟩ := List.mem_map.1 hq
  exact ⟨rfl, rfl⟩

/-- Witness for C7: in a body whose first statement is `USE otherdb`, the
later statement is still resolved against the original context. -/
theorem C7_constant_default_context_witness :
    (ObservedQuery.mk (some "warehouse".toList) (some "dbo".toList)
        "SELECT * FROM t".toList) ∈
      observed_queries (some "warehouse".toList) (some "dbo".toList)
        exUseCode ∧
    (ObservedQuery.mk (some "warehouse".toList) (some "dbo".toList)
        "SELECT * FROM t".toList).default_db = some "warehouse".toList :=
  ⟨by decide,
    (C7_constant_default_context (some "warehouse".toList)
      (some "dbo".toList) exUseCode _ (by decide)).1⟩

/-- C3: `parse_procedure_code` raises exactly when strict mode is on and
the failure count is non-zero; in non-strict mode it returns the lineage
aggregated from the statements that did parse, the failure count being
purely diagnostic. -/
theorem C3_raises_iff_strict_and_failed
    (parse : ObservedQuery → Option StatementLineage)
    (it : Str → Bool) (ddb dsch : Option Str) (code : Str) (raise_ : Bool) :
    ((∃ e, parse_procedure_code parse it ddb dsch code raise_ =
        Except.error e) ↔
      raise_ = true ∧
        num_observed_queries_failed parse
          (observed_queries ddb dsch code) ≠ 0) ∧
    (raise_ = false →
      parse_procedure_code parse it ddb dsch code raise_ =
        Except.ok (to_datajob_input_output
          (aggregated_reads parse it (observed_queries ddb dsch code))
          (aggregated_writes parse it (observed_queries ddb dsch code)))) ∧
    aggregated_reads parse it (observed_queries ddb dsch code) =
      aggregated_reads parse it
        ((observed_queries ddb dsch code).filter
          (fun q => (parse q).isSome)) ∧
    aggregated_writes parse it (observed_queries ddb dsch code) =
      aggregated_writes parse it
        ((observed_queries ddb dsch code).filter
          (fun q => (parse q).isSome)) := by
  refine ⟨?_, ?_, ?_, ?_⟩
  · unfold parse_procedure_code
    split
    · rename_i h
      exact ⟨fun _ => ⟨h.2, h.1⟩,
        fun _ => ⟨"Failed to parse queries.".toList, rfl⟩⟩
    · rename_i h
      constructor
      · rintro ⟨e, he⟩
        exact Except.noConfusion he
      · rintro ⟨hr, hn⟩
        exact absurd ⟨hn, hr⟩ h
  · intro hr
    unfold parse_procedure_code
    split
    · rename_i h
      rw [hr] at h
      exact absurd h.2 Bool.false_ne_true
    · rfl
  · unfold aggregated_reads
    rw [flatMap_parsed_tables_filter_isSome]
  · unfold aggregated_writes
    rw [flatMap_parsed_tables_filter_isSome]

/-- Witness for C3: on the five-statement body `exCode`, one statement of
which fails to parse, strict mode raises and non-strict mode returns the
lineage recovered from the other four statements. -/
theorem C3_raises_iff_strict_and_failed_witness :
    (∃ e, parse_procedure_code exParse exTempTable none
        (some "analytics".toList) exCode true = Except.error e) ∧
    parse_procedure_code exParse exTempTable none
        (some "analytics".toList) exCode false =
      Except.ok (to_datajob_input_output
        (aggregated_reads exParse exTempTable
          (observed_queries none (some "analytics".toList) exCode))
        (aggregated_writes exParse exTempTable
          (observed_queries none (some "analytics".toList) exCode))) :=
  ⟨(C3_raises_iff_strict_and_failed exParse exTempTable none
      (some "analytics".toList) exCode true).1.mpr ⟨rfl, by decide⟩,
    (C3_raises_iff_strict_and_failed exParse exTempTable none
      (some "analytics".toList) exCode false).2.1 rfl⟩

/-- C10: `generate_procedure_lineage` yields nothing when the procedure's
code is `None` or empty; otherwise it yields at most one change proposal,
carrying the parsed input/output aspect under the given job identifier,
exactly when parsing produced a non-null result. -/
theorem C10_generate_lineage_shape
    (parse : ObservedQuery → Option StatementLineage) (it : Str → Bool)
    (procedure : StoredProcedure) (urn : Str) (raise_ : Bool) :
    ((procedure.code = none ∨ procedure.code = some []) →
      generate_procedure_lineage parse it procedure urn raise_ =
        Except.ok []) ∧
    (∀ l, generate_procedure_lineage parse it procedure urn raise_ =
        Except.ok l → l.length ≤ 1) ∧
    (∀ l m code, procedure.code = some code →
      generate_procedure_lineage parse it procedure urn raise_ =
        Except.ok l → m ∈ l →
      m.entityUrn = urn ∧
        parse_procedure_code parse it (some procedure.db)
          (some procedure.schema) code raise_ =
          Except.ok (some m.aspect)) := by
  refine ⟨?_, ?_, ?_⟩
  · rintro (h | h) <;> simp [generate_procedure_lineage, h]
  · intro l hl
    unfold generate_procedure_lineage at hl
    split at hl
    · split at hl
      · split at hl
        · exact Except.noConfusion hl
        · injection hl with h
          subst h
          simp
        · injection hl with h
          subst h
          simp
      · injection hl with h
        subst h
        simp
    · injection hl with h
      subst h
      simp
  · intro l m code hcode hl hm
    by_cases hne : code = []
    · simp [generate_procedure_lineage, hcode, hne] at hl
      subst hl
      simp at hm
    · cases hcase : parse_procedure_code parse it (some procedure.db)
          (some procedure.schema) code raise_ with
      | error e =>
          simp [generate_procedure_lineage, hcode, hne, hcase] at hl
      | ok o =>
          cases o with
          | none =>
              simp [generate_procedure_lineage, hcode, hne, hcase] at hl
              subst hl
              simp at hm
          | some dio =>
              simp [generate_procedure_lineage, hcode, hne, hcase] at hl
              subst hl
              simp only [List.mem_singleton] at hm
              subst hm
              exact ⟨rfl, rfl⟩

/-- Witness for C10: a procedure without code yields no change proposal,
and the five-statement procedure yields a single proposal list of length
at most one. -/
theorem C10_generate_lineage_shape_witness :
    generate_procedure_lineage exParse exTempTable exProcNoCode
        "urn:li:dataJob:x".toList false = Except.ok [] ∧
    [MetadataChangeProposalWrapper.mk "urn:li:dataJob:x".toList
        (DataJobInputOutputClass.mk ["analytics.metrics".toList] [] [])
      ].length ≤ 1 :=
  ⟨(C10_generate_lineage_shape exParse exTempTable exProcNoCode
      "urn:li:dataJob:x".toList false).1 (Or.inl rfl),
    (C10_generate_lineage_shape exParse exTempTable exProcWithCode
      "urn:li:dataJob:x".toList false).2.1 _ (by rfl)⟩
